import Mathlib

/-!
Shallow embedding of the control-channel command engine of `src/main.py`
(a minimal active-mode FTP server).

Modelling conventions:
  * bytes are `Nat`s; byte strings are `List Nat`;
  * Python strings are Lean `String`s, with the Python string methods the
    source uses (`strip`, `split`, `upper`, `startswith`, `int(...)`,
    `','.join`, `os.path.join`, `os.path.normpath`, `os.path.abspath`)
    re-implemented below over `List Char`;
  * the observable I/O of a handler (`say` calls, data-socket connects,
    file opens, byte writes) is an explicit `Event` trace;
  * a Python exception escaping a handler is `Except.error` carrying the
    exception class; a normal return is `Except.ok` with the new context;
  * `socket.recv` on the data channel is modelled by a list of chunks
    passed as a parameter: successive `recv` calls pop successive chunks,
    and an exhausted list behaves as a peer close (`recv` returning `b''`).
-/

/-! ## Python string primitives -/

/-- The characters Python's `str.strip()` / `str.split()` treat as whitespace. -/
def pyIsSpace (c : Char) : Bool :=
  c = ' ' ∨ c = '\t' ∨ c = '\n' ∨ c = '\r' ∨ c = Char.ofNat 11 ∨ c = Char.ofNat 12

/-- Python `str.strip()`: drop leading and trailing whitespace. -/
def pyStrip (s : String) : String :=
  String.mk (((s.toList.dropWhile pyIsSpace).reverse.dropWhile pyIsSpace).reverse)

/-- Split a character list at every character satisfying `p`, keeping empty pieces
(the splitting scheme underlying Python's `str.split(sep)`). -/
def splitPredList (p : Char → Bool) : List Char → List (List Char)
  | [] => [[]]
  | c :: rest =>
    let r := splitPredList p rest
    if p c then [] :: r
    else
      match r with
      | h :: t => (c :: h) :: t
      | [] => [[c]]

/-- Python `str.split()` with no separator: split on whitespace runs, no empty pieces. -/
def pySplitWs (s : String) : List String :=
  ((splitPredList pyIsSpace s.toList).map String.mk).filter (fun x => x ≠ "")

/-- Python `str.split(',')`: split on every comma, keeping empty pieces. -/
def pySplitComma (s : String) : List String :=
  (splitPredList (fun c => c = ',') s.toList).map String.mk

/-- Python `a.startswith(b)`. -/
def pyStartswith (s pre : String) : Bool :=
  pre.toList.isPrefixOf s.toList

/-- Python `sep.join(xs)` for string elements. -/
def pyJoinSep (sep : String) : List String → String
  | [] => ""
  | [x] => x
  | x :: xs => x ++ sep ++ pyJoinSep sep xs

/-- Python `int(s)`: optional surrounding whitespace, optional sign, decimal
digits; any other shape raises `ValueError` (modelled as `none`). -/
def pyInt (s : String) : Option Int :=
  let t := ((s.toList.dropWhile pyIsSpace).reverse.dropWhile pyIsSpace).reverse
  let signDigits : Bool × List Char :=
    match t with
    | '-' :: rest => (true, rest)
    | '+' :: rest => (false, rest)
    | _ => (false, t)
  let neg := signDigits.1
  let ds := signDigits.2
  if ds ≠ [] ∧ ds.all Char.isDigit then
    let n : Nat := ds.foldl (fun acc c => acc * 10 + (c.toNat - 48)) 0
    some (if neg then -(n : Int) else (n : Int))
  else none

/-- Python `str(x)` as used by the f-string `f"...{ctx.command}..."` where the
field is either a string or `None`. -/
def pyStrOfOpt : Option String → String
  | none => "None"
  | some s => s

/-! ## posixpath primitives (`os.path.join`, `os.path.normpath`, `os.path.abspath`) -/

/-- Python `posixpath.join(a, b)` (two arguments). -/
def pyJoin (a b : String) : String :=
  if b.toList.take 1 = ['/'] then b
  else if a = "" ∨ a.toList.getLast? = some '/' then a ++ b
  else a ++ "/" ++ b

/-- Python `posixpath.normpath`. -/
def pyNormpath (path : String) : String :=
  if path = "" then "."
  else
    let cs := path.toList
    let initialSlashes : Nat :=
      if cs.take 1 = ['/'] then
        (if cs.take 2 = ['/', '/'] ∧ cs.take 3 ≠ ['/', '/', '/'] then 2 else 1)
      else 0
    let comps := (splitPredList (fun c => c = '/') cs).map String.mk
    let newComps := comps.foldl
      (fun acc comp =>
        if comp = "" ∨ comp = "." then acc
        else if comp ≠ ".." ∨ (initialSlashes = 0 ∧ acc = []) ∨ acc.getLast? = some ".." then
          acc ++ [comp]
        else if acc ≠ [] then acc.dropLast
        else acc)
      ([] : List String)
    let joined := pyJoinSep "/" newComps
    let res := String.mk (List.replicate initialSlashes '/') ++ joined
    if res = "" then "." else res

/-- Python `os.path.abspath(p)` with the process working directory passed
explicitly: `normpath(join(cwd, p))` (`normpath(p)` when `p` is absolute). -/
def os_abspath (cwd path : String) : String :=
  if path.toList.take 1 = ['/'] then pyNormpath path
  else pyNormpath (pyJoin cwd path)

/-! ## Data model: `FTPContext`, events, handler results -/

/-- Python exception classes that can escape the embedded handlers. -/
inductive PyError
  | typeError
  | valueError
  | nameError
  | indexError
deriving Repr, DecidableEq

/-- Observable side effects of a handler (`say` on the control connection,
data-socket connect, file opens, byte writes, control-channel close). -/
inductive Event
  | said (msg : String)
  | connectedData (ip : String) (port : Int)
  | openedFileW (path : String)
  | openedFileR (path : String)
  | wroteFile (chunk : List Nat)
  | sentData (chunk : List Nat)
  | closedControl
deriving Repr, DecidableEq

/-- The per-session mutable state of `FTPContext` in the source (the
`control_connection` object is modelled by the event trace instead). -/
structure FTPContext where
  username : Option String
  is_logged : Bool
  cwd : String
  command : Option String
  args : List String
  mode : String
  ip : Option String
  port : Option Int
deriving Repr, DecidableEq

deriving instance DecidableEq for Except

/-- Outcome of running one handler: the emitted event trace, and either the
returned context or the Python exception that escaped. -/
structure HandlerResult where
  events : List Event
  outcome : Except PyError FTPContext
deriving Repr, DecidableEq

/-- The context `Connection.__init__` builds (source lines 226–237). -/
def init_ctx (cwd : String) : FTPContext :=
  { username := none
    is_logged := false
    cwd := cwd
    command := none
    args := []
    mode := "ASCII"
    ip := none
    port := none }

/-! ## Handlers (source lines 75–222) -/

/-- `auth` (source lines 75–76): the USER/PASS handler. It returns the
context unchanged — in particular it never touches `is_logged`. -/
def auth (ctx : FTPContext) : HandlerResult :=
  ⟨[], .ok ctx⟩

/-- `check_auth` (source lines 79–80): returns the context unchanged. -/
def check_auth (ctx : FTPContext) : HandlerResult :=
  ⟨[], .ok ctx⟩

/-- `auth_required` (source lines 83–89): the decorator builds a `wrapper`
closure but ends with `return f`, so it returns the handler unchanged. -/
def auth_required (f : FTPContext → HandlerResult) : FTPContext → HandlerResult :=
  f

/-- `args_length` (source lines 92–102): on an argument-count mismatch it
sends `500 Unrecognised {ctx.command} command.`, sets `ctx.command = None`
and `ctx.args = []`, and returns without calling the wrapped handler. -/
def args_length (l : Nat) (f : FTPContext → HandlerResult) (ctx : FTPContext) : HandlerResult :=
  if ctx.args.length ≠ l then
    ⟨[.said ("500 Unrecognised " ++ pyStrOfOpt ctx.command ++ " command.")],
     .ok { ctx with command := none, args := [] }⟩
  else f ctx

/-- `syst_command` (source lines 105–108). -/
def syst_command (ctx : FTPContext) : HandlerResult :=
  ⟨[.said "215 UNIX Type: L8"], .ok ctx⟩

/-- `noop_command` (source lines 111–114). -/
def noop_command (ctx : FTPContext) : HandlerResult :=
  ⟨[.said "200 We have started to count useful tasks in our network course."], .ok ctx⟩

/-- `quit_command` (source lines 117–121). -/
def quit_command (ctx : FTPContext) : HandlerResult :=
  ⟨[.said "221 Goodbye.", .closedControl], .ok ctx⟩

/-- `type_command` (source lines 124–136): `ctx.args[0].upper()` selects the
mode (`A` → `"ASCII"`, `I` → `"Binary"`); on a match it sets `ctx.mode` and
says `200 Switching to <mode> mode.`; otherwise it returns silently.
`ctx.args[0]` on an empty list raises `IndexError`. -/
def type_command (ctx : FTPContext) : HandlerResult :=
  match ctx.args with
  | [] => ⟨[], .error .indexError⟩
  | a :: _ =>
    let typed := a.toUpper
    if typed = "A" then
      ⟨[.said "200 Switching to ASCII mode."], .ok { ctx with mode := "ASCII" }⟩
    else if typed = "I" then
      ⟨[.said "200 Switching to Binary mode."], .ok { ctx with mode := "Binary" }⟩
    else ⟨[], .ok ctx⟩

/-- `stru_command` (source lines 139–148). -/
def stru_command (ctx : FTPContext) : HandlerResult :=
  match ctx.args with
  | [] => ⟨[], .error .indexError⟩
  | a :: _ =>
    if a.toUpper = "F" then ⟨[.said "200 Structure set to F."], .ok ctx⟩
    else ⟨[.said "504 1975 have ringed the bell."], .ok ctx⟩

/-- The `for i in map(int, raw_ip_info): if 0 <= i <= 255: say('504 ...')`
loop of `port_command` (source lines 158–160): `int` is applied lazily while
iterating, so a non-numeric field raises `ValueError` after the events of the
earlier fields; a field whose value is in `[0, 255]` emits a `504`. -/
def portLoop : List String → Except (List Event) (List Event)
  | [] => .ok []
  | s :: rest =>
    match pyInt s with
    | none => .error []
    | some i =>
      let ev : List Event :=
        if 0 ≤ i ∧ i ≤ 255 then [.said "504 Wrong ip or port format."] else []
      match portLoop rest with
      | .error evs => .error (ev ++ evs)
      | .ok evs => .ok (ev ++ evs)

/-- `port_command` (source lines 151–165). Note the source's actual control
flow: the `len != 6` branch says `504` but does not return; the range check
is inverted (it says `504` for every field that IS in `[0, 255]`); and
`'.'.join(list(map(int, raw_ip_info))[:4])` joins `int`s, which always
raises `TypeError`, so the assignments to `ctx.ip` / `ctx.port` never run. -/
def port_command (ctx : FTPContext) : HandlerResult :=
  match ctx.args with
  | [] => ⟨[], .error .indexError⟩
  | arg :: _ =>
    let raw_ip_info := pySplitComma arg
    let ev1 : List Event :=
      if raw_ip_info.length ≠ 6 then [.said "504 Wrong ip or port format."] else []
    match portLoop raw_ip_info with
    | .error evs => ⟨ev1 ++ evs, .error .valueError⟩
    | .ok evs => ⟨ev1 ++ evs, .error .typeError⟩

/-- The `abs_path` computed by `stor_command` (source lines 174–175):
`os.path.abspath(' '.join(ctx.args))`, resolved against the process working
directory. -/
def stor_abs (proc_cwd : String) (ctx : FTPContext) : String :=
  os_abspath proc_cwd (pyJoinSep " " ctx.args)

/-- The `abs_path` computed by `retr_command` (source lines 203–204):
`os.path.abspath(os.path.join(ctx.cwd, ' '.join(ctx.args)))`. -/
def retr_abs (proc_cwd : String) (ctx : FTPContext) : String :=
  os_abspath proc_cwd (pyJoin ctx.cwd (pyJoinSep " " ctx.args))

/-- The STOR copy loop (source lines 185–188): `recv` chunks are written to
the file until a `recv` returns `b''` (modelled by an empty chunk or an
exhausted chunk list). -/
def storCopy (chunks : List (List Nat)) : List (List Nat) :=
  chunks.takeWhile (fun c => c.length > 0)

/-- `stor_command` (source lines 168–194). After the copy loop the source
executes `ctx.control_connection('226 STOR file ok.')` (line 190), calling
the `InputSocketConnection` object itself; that object has no `__call__`,
so the call raises `TypeError` and the `ctx.ip = None` / `ctx.port = None`
statements on lines 192–193 are never reached. -/
def stor_command (proc_cwd : String) (dataChunks : List (List Nat)) (ctx : FTPContext) :
    HandlerResult :=
  match ctx.ip, ctx.port with
  | some ip, some port =>
    let abs_path := stor_abs proc_cwd ctx
    if ¬ pyStartswith ctx.cwd abs_path then
      ⟨[.said "550 Failed to open file."], .ok ctx⟩
    else
      ⟨[.said "150 Here comes the train.", .connectedData ip port, .openedFileW abs_path]
         ++ (storCopy dataChunks).map Event.wroteFile,
       .error .typeError⟩
  | _, _ => ⟨[.said "425 Use PORT or PASV first."], .ok ctx⟩

/-- `retr_command` (source lines 197–222). After connecting the data socket
the source executes `data = fin.read(4096)` (line 213) before the
`with open(abs_path, 'rb') as fin` that would bind `fin`, so the handler
raises `NameError` there: the file is never opened, nothing is sent, and
neither the `226` response nor the endpoint clearing is reached. -/
def retr_command (proc_cwd : String) (ctx : FTPContext) : HandlerResult :=
  match ctx.ip, ctx.port with
  | some ip, some port =>
    let abs_path := retr_abs proc_cwd ctx
    if ¬ pyStartswith ctx.cwd abs_path then
      ⟨[.said "550 Failed to open file."], .ok ctx⟩
    else
      ⟨[.said "150 Here comes the file.", .connectedData ip port], .error .nameError⟩
  | _, _ => ⟨[.said "425 Use PORT or PASV first."], .ok ctx⟩

/-! ## Dispatcher (source lines 250–271) -/

/-- The `commands` dict of `Connection._process_command` (source lines
256–266), with each handler wrapped exactly as its decorators wrap it. -/
def commands (proc_cwd : String) (dataChunks : List (List Nat)) :
    List (String × (FTPContext → HandlerResult)) :=
  [("USER", auth),
   ("PASS", auth),
   ("SYST", auth_required syst_command),
   ("NOOP", auth_required noop_command),
   ("QUIT", auth_required quit_command),
   ("TYPE", auth_required (args_length 1 type_command)),
   ("PORT", auth_required (args_length 1 port_command)),
   ("STOR", auth_required (stor_command proc_cwd dataChunks)),
   ("RETR", auth_required (retr_command proc_cwd))]

/-- `Connection._process_command` (source lines 250–271) applied to one
received line. The source computes `control_command = command_line[0].upper()`
but then tests `if command in commands` with `command` the WHOLE stripped
line, and it never copies the parsed verb or arguments into the context.
`command_line[0]` raises `IndexError` when the stripped line is empty. -/
def process_command (proc_cwd : String) (dataChunks : List (List Nat)) (raw : String)
    (ctx : FTPContext) : HandlerResult :=
  let command := pyStrip raw
  let command_line := pySplitWs command
  match command_line with
  | [] => ⟨[], .error .indexError⟩
  | w :: _ =>
    let _control_command := w.toUpper
    match List.lookup command (commands proc_cwd dataChunks) with
    | some h => h ctx
    | none => ⟨[.said "502 Not implemented."], .ok ctx⟩

/-! ## Framer (source lines 18–46) -/

/-- The buffered-read state of `InputSocketConnection`: the current `buffer`
and `buffer_pos`, plus the sequence of future `recv` results (each network
read delivers the next element; an exhausted list behaves as a closed peer,
i.e. `recv` returning `b''`). -/
structure FramerState where
  buffer : List Nat
  buffer_pos : Nat
  reads : List (List Nat)
deriving Repr, DecidableEq

/-- `InputSocketConnection._get_byte` (source lines 26–37): refill the buffer
from the next network read when exhausted; a zero-length buffer after the
refill means the peer closed (the source then raises, modelled as `none`). -/
def get_byte (st : FramerState) : Option (Nat × FramerState) :=
  if st.buffer_pos ≥ st.buffer.length then
    match st.reads with
    | [] => none
    | r :: rs =>
      match r with
      | [] => none
      | b :: _ => some (b, ⟨r, 1, rs⟩)
  else
    match st.buffer[st.buffer_pos]? with
    | some b => some (b, ⟨st.buffer, st.buffer_pos + 1, st.reads⟩)
    | none => none

/-- The loop guard of `_get_command`: Python `cur_command[-2:] == b'\r\n'`
(a slice shorter than two bytes never compares equal). -/
def endsCRLF (l : List Nat) : Bool :=
  l.drop (l.length - 2) = [13, 10]

/-- `InputSocketConnection._get_command` (source lines 40–46), with explicit
fuel for the accumulation loop: append bytes until the accumulator ends in
CRLF, returning the accumulated line CRLF included. -/
def get_command (fuel : Nat) (acc : List Nat) (st : FramerState) :
    Option (List Nat × FramerState) :=
  match fuel with
  | 0 => none
  | fuel + 1 =>
    if endsCRLF acc then some (acc, st)
    else
      match get_byte st with
      | none => none
      | some (b, st') => get_command fuel (acc ++ [b]) st'

/-- Reference version of the `_get_command` loop reading directly from the
flattened byte stream. -/
def getCmdPure (fuel : Nat) (acc : List Nat) (s : List Nat) : Option (List Nat) :=
  match fuel with
  | 0 => none
  | fuel + 1 =>
    if endsCRLF acc then some acc
    else
      match s with
      | [] => none
      | b :: rest => getCmdPure fuel (acc ++ [b]) rest

/-- Whether a byte string contains the CRLF pair as a contiguous substring. -/
def containsCRLF : List Nat → Bool
  | [] => false
  | [_] => false
  | a :: b :: rest => (a = 13 ∧ b = 10) || containsCRLF (b :: rest)

/-- The bytes a framer state will deliver, in order. -/
def streamOf (st : FramerState) : List Nat :=
  st.buffer.drop st.buffer_pos ++ st.reads.flatten

/-- All pending network reads of a state are non-empty. -/
def readsNonempty (st : FramerState) : Prop :=
  ∀ r ∈ st.reads, r ≠ []

/-! ## Framer lemmas -/

theorem get_byte_spec (st : FramerState) (h : readsNonempty st) :
    (streamOf st = [] ∧ get_byte st = none) ∨
    (∃ b st', get_byte st = some (b, st') ∧ streamOf st = b :: streamOf st' ∧
      readsNonempty st') := by
  by_cases hpos : st.buffer_pos ≥ st.buffer.length
  · have hdrop : st.buffer.drop st.buffer_pos = [] := List.drop_eq_nil_of_le hpos
    match hr : st.reads with
    | [] =>
      left
      constructor
      · simp [streamOf, hdrop, hr]
      · simp only [get_byte, hr]
        rw [if_pos hpos]
    | r :: rs =>
      have hrne : r ≠ [] := h r (by rw [hr]; exact List.mem_cons_self _ _)
      match r, hrne with
      | b :: t, _ =>
        right
        refine ⟨b, ⟨b :: t, 1, rs⟩, ?_, ?_, ?_⟩
        · simp only [get_byte, hr]
          rw [if_pos hpos]
        · simp [streamOf, hdrop, hr]
        · intro r' hr'
          exact h r' (by rw [hr]; exact List.mem_cons_of_mem _ hr')
  · push_neg at hpos
    right
    refine ⟨st.buffer[st.buffer_pos], ⟨st.buffer, st.buffer_pos + 1, st.reads⟩, ?_, ?_, ?_⟩
    · simp only [get_byte]
      rw [if_neg (by omega), List.getElem?_eq_getElem hpos]
    · unfold streamOf
      rw [List.drop_eq_getElem_cons hpos]
      rfl
    · exact h

theorem getCmdPure_succ (n : Nat) (acc s : List Nat) :
    getCmdPure (n + 1) acc s =
      if endsCRLF acc then some acc
      else
        match s with
        | [] => none
        | b :: rest => getCmdPure n (acc ++ [b]) rest := rfl

theorem get_command_succ (n : Nat) (acc : List Nat) (st : FramerState) :
    get_command (n + 1) acc st =
      if endsCRLF acc then some (acc, st)
      else
        match get_byte st with
        | none => none
        | some (b, st') => get_command n (acc ++ [b]) st' := rfl

theorem get_command_eq_pure (fuel : Nat) : ∀ (acc : List Nat) (st : FramerState),
    readsNonempty st →
    (get_command fuel acc st).map Prod.fst = getCmdPure fuel acc (streamOf st) := by
  induction fuel with
  | zero => intro acc st _; rfl
  | succ n ih =>
    intro acc st h
    rw [get_command_succ, getCmdPure_succ]
    by_cases hacc : endsCRLF acc
    · simp [hacc]
    · rw [if_neg hacc, if_neg hacc]
      rcases get_byte_spec st h with ⟨hs, hb⟩ | ⟨b, st', hb, hs, h'⟩
      · rw [hs, hb]
        rfl
      · rw [hs, hb]
        exact ih _ _ h'

theorem endsCRLF_concat (l : List Nat) : endsCRLF (l ++ [13, 10]) = true := by
  have hlen : (l ++ [13, 10]).length - 2 = l.length := by simp
  simp [endsCRLF, hlen, List.drop_left]

theorem exists_of_endsCRLF {l : List Nat} (h : endsCRLF l = true) :
    ∃ t, l = t ++ [13, 10] := by
  simp only [endsCRLF, decide_eq_true_eq] at h
  exact ⟨l.take (l.length - 2), by rw [← h]; exact (List.take_append_drop _ _).symm⟩

theorem containsCRLF_cons (a : Nat) (l : List Nat) (h : containsCRLF l = true) :
    containsCRLF (a :: l) = true := by
  match l with
  | [] => simp [containsCRLF] at h
  | b :: rest => simp [containsCRLF, h]

theorem containsCRLF_of_append (t u : List Nat) :
    containsCRLF (t ++ 13 :: 10 :: u) = true := by
  induction t with
  | nil => simp [containsCRLF]
  | cons c t ih => exact containsCRLF_cons c _ ih

theorem noMisdetect {L : List Nat} (hL : containsCRLF L = false)
    {k : Nat} (hk : k ≤ L.length + 1)
    (h : endsCRLF ((L ++ [13, 10]).take k) = true) : False := by
  rcases Nat.lt_or_ge k (L.length + 1) with hlt | hge
  · have hk' : k ≤ L.length := Nat.lt_succ_iff.mp hlt
    rw [List.take_append_of_le_length hk'] at h
    obtain ⟨t, ht⟩ := exists_of_endsCRLF h
    have hL' : L = t ++ 13 :: 10 :: L.drop k := by
      calc L = L.take k ++ L.drop k := (List.take_append_drop _ _).symm
        _ = (t ++ [13, 10]) ++ L.drop k := by rw [ht]
        _ = t ++ 13 :: 10 :: L.drop k := by simp
    rw [hL'] at hL
    simp [containsCRLF_of_append] at hL
  · have hk2 : k = L.length + 1 := le_antisymm hk hge
    subst hk2
    have htake : (L ++ [13, 10]).take (L.length + 1) = L ++ [13] := by
      have h1 := @List.take_append Nat L [13, 10] 1
      simpa using h1
    rw [htake] at h
    obtain ⟨t, ht⟩ := exists_of_endsCRLF h
    have h1 : (L ++ [13]).getLast? = some 13 := List.getLast?_concat _
    have h2 : (t ++ [13, 10]).getLast? = some 10 := by
      have hassoc : t ++ [13, 10] = (t ++ [13]) ++ [10] := by simp
      rw [hassoc]
      exact List.getLast?_concat _
    rw [ht, h2] at h1
    simp at h1

theorem getCmdPure_value {L : List Nat} (hL : containsCRLF L = false) :
    ∀ (r p : List Nat), p ++ r = L ++ [13, 10] →
      getCmdPure (r.length + 1) p r = some (L ++ [13, 10]) := by
  intro r
  induction r with
  | nil =>
    intro p hp
    rw [List.append_nil] at hp
    subst hp
    rw [getCmdPure_succ]
    simp [endsCRLF_concat]
  | cons b r' ih =>
    intro p hp
    have hpf : endsCRLF p = false := by
      have hp' : (L ++ [13, 10]).take p.length = p := by rw [← hp, List.take_left]
      have hlen : p.length ≤ L.length + 1 := by
        have hl := congrArg List.length hp
        simp at hl
        omega
      by_contra hne
      have hcase : endsCRLF p = true := by
        cases h' : endsCRLF p
        · exact absurd h' hne
        · rfl
      exact noMisdetect hL hlen (by rw [hp']; exact hcase)
    simp only [List.length_cons]
    rw [getCmdPure_succ, if_neg (by rw [hpf]; exact Bool.false_ne_true)]
    exact ih (p ++ [b]) (by rw [List.append_assoc]; exact hp)

/-- Claim C9: for every command line L (containing no CRLF) terminated by CRLF,
and every partition of the bytes of L+CRLF into non-empty network reads,
`_get_command` returns the same result as when L+CRLF arrives in one read
(and, with sufficient fuel, that result is exactly L+CRLF); moreover the
accumulator's terminator test never fires before two bytes are accumulated. -/
theorem C9_framing_idempotence (P : List (List Nat)) (L : List Nat) (fuel : Nat)
    (hP : ∀ r ∈ P, r ≠ []) (hflat : P.flatten = L ++ [13, 10])
    (hL : containsCRLF L = false) :
    ((get_command fuel [] ⟨[], 0, P⟩).map Prod.fst
        = (get_command fuel [] ⟨[], 0, [L ++ [13, 10]]⟩).map Prod.fst)
    ∧ ((get_command (L.length + 3) [] ⟨[], 0, P⟩).map Prod.fst = some (L ++ [13, 10]))
    ∧ (∀ acc : List Nat, acc.length < 2 → endsCRLF acc = false) := by
  have hstream : streamOf ⟨[], 0, P⟩ = L ++ [13, 10] := by
    simp [streamOf, hflat]
  have hsingle : streamOf ⟨[], 0, [L ++ [13, 10]]⟩ = L ++ [13, 10] := by
    simp [streamOf]
  have h1 : ∀ f, (get_command f [] ⟨[], 0, P⟩).map Prod.fst
      = getCmdPure f [] (L ++ [13, 10]) := by
    intro f
    rw [← hstream]
    exact get_command_eq_pure f [] _ hP
  have h2 : ∀ f, (get_command f [] ⟨[], 0, [L ++ [13, 10]]⟩).map Prod.fst
      = getCmdPure f [] (L ++ [13, 10]) := by
    intro f
    have he := get_command_eq_pure f [] ⟨[], 0, [L ++ [13, 10]]⟩ ?_
    · rw [he, hsingle]
    · intro r hr
      simp only [List.mem_singleton] at hr
      subst hr
      simp
  refine ⟨by rw [h1, h2], ?_, ?_⟩
  · rw [h1]
    have hv := getCmdPure_value hL (L ++ [13, 10]) [] (by simp)
    have hlen : (L ++ [13, 10]).length + 1 = L.length + 3 := by simp
    rw [hlen] at hv
    exact hv
  · intro acc hacc
    match acc, hacc with
    | [], _ => rfl
    | [a], _ => simp [endsCRLF]

/-! ## Claim theorems -/

/-- Claim C9 witness: the line `NOOP` split into the reads `NO` and `OP\r\n`
is framed identically to a single read, and with fuel `|L| + 3` the framer
returns exactly `NOOP\r\n`. -/
theorem C9_framing_idempotence_witness :
    ((∀ r ∈ ([[78, 79], [79, 80, 13, 10]] : List (List Nat)), r ≠ [])
      ∧ ([[78, 79], [79, 80, 13, 10]] : List (List Nat)).flatten = [78, 79, 79, 80] ++ [13, 10]
      ∧ containsCRLF [78, 79, 79, 80] = false)
    ∧ (((get_command 9 [] ⟨[], 0, [[78, 79], [79, 80, 13, 10]]⟩).map Prod.fst
          = (get_command 9 [] ⟨[], 0, [[78, 79, 79, 80] ++ [13, 10]]⟩).map Prod.fst)
        ∧ ((get_command ([78, 79, 79, 80].length + 3) [] ⟨[], 0, [[78, 79], [79, 80, 13, 10]]⟩).map Prod.fst
            = some ([78, 79, 79, 80] ++ [13, 10]))
        ∧ (∀ acc : List Nat, acc.length < 2 → endsCRLF acc = false)) :=
  ⟨⟨by decide, by decide, by decide⟩,
   C9_framing_idempotence [[78, 79], [79, 80, 13, 10]] [78, 79, 79, 80] 9
     (by decide) (by decide) (by decide)⟩

/-- Claim C3: with the pending endpoint unset (ip or port `None`), STOR and
RETR respond exactly `425 Use PORT or PASV first.` and do nothing else: no
data socket, no file, and the returned context is the input unchanged. -/
theorem C3_transfer_precondition (proc_cwd : String) (dataChunks : List (List Nat))
    (ctx : FTPContext) (h : ctx.ip = none ∨ ctx.port = none) :
    stor_command proc_cwd dataChunks ctx = ⟨[.said "425 Use PORT or PASV first."], .ok ctx⟩
    ∧ retr_command proc_cwd ctx = ⟨[.said "425 Use PORT or PASV first."], .ok ctx⟩ := by
  cases hip : ctx.ip with
  | none =>
    constructor
    · simp only [stor_command, hip]
    · simp only [retr_command, hip]
  | some ip0 =>
    cases hport : ctx.port with
    | none =>
      constructor
      · simp only [stor_command, hip, hport]
      · simp only [retr_command, hip, hport]
    | some p0 =>
      rw [hip, hport] at h
      rcases h with h | h <;> exact absurd h (by simp)

/-- Claim C3 witness: a fresh session (no PORT yet) gets `425` from both
transfer commands with no state change. -/
theorem C3_transfer_precondition_witness :
    ((init_ctx "/srv").ip = none ∨ (init_ctx "/srv").port = none)
    ∧ (stor_command "/srv" [] (init_ctx "/srv")
        = ⟨[.said "425 Use PORT or PASV first."], .ok (init_ctx "/srv")⟩
      ∧ retr_command "/srv" (init_ctx "/srv")
        = ⟨[.said "425 Use PORT or PASV first."], .ok (init_ctx "/srv")⟩) :=
  ⟨by decide, C3_transfer_precondition "/srv" [] (init_ctx "/srv") (by decide)⟩

/-! ## Per-claim concrete contexts -/

/-- A session jailed at `/srv/jail` with endpoint `10.0.0.5:2049`, asked for
the path `/` (canonicalizes outside the jail). -/
def c1ctxOutside : FTPContext :=
  { init_ctx "/srv/jail" with ip := some "10.0.0.5", port := some 2049, args := ["/"] }

/-- The same session asked for `notes.txt` (canonicalizes inside the jail). -/
def c1ctxInside : FTPContext :=
  { init_ctx "/srv/jail" with ip := some "10.0.0.5", port := some 2049, args := ["notes.txt"] }

/-- A session jailed at `/data/root` with endpoint `192.168.0.9:4242`, asked
for `report.txt`. -/
def c4ctx : FTPContext :=
  { init_ctx "/data/root" with ip := some "192.168.0.9", port := some 4242, args := ["report.txt"] }

/-- Claim C1 evaluated on the code: the jail test `ctx.cwd.startswith(abs_path)`
is inverted. The supplied path `/` canonicalizes to `/`, which is outside the
jail root `/srv/jail`, yet both RETR and STOR pass the check and proceed to
open the data socket (no `550`); conversely the in-jail path
`/srv/jail/notes.txt` is rejected with `550`. -/
theorem C1_jail_check_eval :
    retr_command "/srv/jail" c1ctxOutside
      = ⟨[.said "150 Here comes the file.", .connectedData "10.0.0.5" 2049], .error .nameError⟩
    ∧ stor_command "/srv/jail" [] c1ctxOutside
      = ⟨[.said "150 Here comes the train.", .connectedData "10.0.0.5" 2049, .openedFileW "/"],
         .error .typeError⟩
    ∧ retr_abs "/srv/jail" c1ctxOutside = "/"
    ∧ pyStartswith "/" "/srv/jail" = false
    ∧ stor_command "/srv/jail" [] c1ctxInside
      = ⟨[.said "550 Failed to open file."], .ok c1ctxInside⟩ := by
  refine ⟨?_, ?_, ?_, ?_, ?_⟩ <;> rfl

/-- Claim C2 evaluated on the code: the dispatcher tests the WHOLE stripped
line for membership in the command dict (the uppercased first token is
computed but unused, and arguments are never stored), so `TYPE A` and the
lowercase `noop` both get `502 Not implemented.`; only an exact uppercase
bare verb such as `NOOP` dispatches. -/
theorem C2_dispatch_eval :
    process_command "/srv/jail" [] "TYPE A\r\n" (init_ctx "/srv/jail")
      = ⟨[.said "502 Not implemented."], .ok (init_ctx "/srv/jail")⟩
    ∧ process_command "/srv/jail" [] "noop\r\n" (init_ctx "/srv/jail")
      = ⟨[.said "502 Not implemented."], .ok (init_ctx "/srv/jail")⟩
    ∧ process_command "/srv/jail" [] "NOOP\r\n" (init_ctx "/srv/jail")
      = ⟨[.said "200 We have started to count useful tasks in our network course."],
         .ok (init_ctx "/srv/jail")⟩ := by
  refine ⟨?_, ?_, ?_⟩ <;> rfl

/-- Claim C4 evaluated on the code: a STOR or RETR whose jail check fails
returns with the pending endpoint still set (`ctx.ip`/`ctx.port` are not
cleared on the `550` path; on the success path the `TypeError` of line 190
aborts the handler before the clearing statements), so a following transfer
command does not get `425`. -/
theorem C4_endpoint_not_cleared_eval :
    stor_command "/data/root" [] c4ctx
      = ⟨[.said "550 Failed to open file."], .ok c4ctx⟩
    ∧ c4ctx.ip = some "192.168.0.9" ∧ c4ctx.port = some 4242
    ∧ retr_command "/data/root" c4ctx
      = ⟨[.said "550 Failed to open file."], .ok c4ctx⟩ := by
  refine ⟨?_, ?_, ?_, ?_⟩ <;> rfl

/-- Claim C5 evaluated on the code: a six-field non-numeric descriptor makes
`port_command` raise `ValueError` at `map(int, ...)` with NO `504` response at
all, and a two-field numeric descriptor gets THREE `504` responses (one for
the field count, one per in-range field — the range test is inverted) and then
a `TypeError`; neither path is the clean single `504` the claim requires. -/
theorem C5_port_malformed_eval :
    port_command { init_ctx "/" with args := ["a,b,c,d,e,f"] } = ⟨[], .error .valueError⟩
    ∧ port_command { init_ctx "/" with args := ["1,2"] }
      = ⟨[.said "504 Wrong ip or port format.", .said "504 Wrong ip or port format.",
          .said "504 Wrong ip or port format."], .error .typeError⟩ := by
  refine ⟨?_, ?_⟩ <;> rfl

/-- Claim C6 evaluated on the code: the valid descriptor `127,0,0,1,200,10`
makes `port_command` send `504 Wrong ip or port format.` six times (inverted
range test) and then raise `TypeError` at `'.'.join` over ints, so the
endpoint is never set. -/
theorem C6_port_valid_eval :
    port_command { init_ctx "/" with args := ["127,0,0,1,200,10"] }
      = ⟨[.said "504 Wrong ip or port format.", .said "504 Wrong ip or port format.",
          .said "504 Wrong ip or port format.", .said "504 Wrong ip or port format.",
          .said "504 Wrong ip or port format.", .said "504 Wrong ip or port format."],
         .error .typeError⟩ := by
  rfl

/-- A context whose stored command field is `TYPE` and whose args are empty. -/
def c7ctx : FTPContext :=
  { init_ctx "/srv" with command := some "TYPE" }

/-- Claim C7 counterexample: invoking TYPE's wrapper (declared count 1) with
zero arguments does NOT leave the session otherwise unmutated — the wrapper
also resets the stored command field (and args), so the result differs from
the claim's predicted `500` response with an unchanged context. -/
theorem C7_counterexample :
    args_length 1 type_command c7ctx
      ≠ ⟨[.said "500 Unrecognised TYPE command."], .ok c7ctx⟩ := by
  decide

/-- Claim C7 (amended): on an argument-count mismatch the wrapper sends
exactly `500 Unrecognised <C> command.` where `<C>` renders the session's
stored command field (`None` when unset), does not invoke the wrapped handler
(the result is independent of it), and additionally resets the command field
to none and the args list to empty; no other session field changes. -/
theorem C7_arg_count_amended (l : Nat) (f g : FTPContext → HandlerResult)
    (ctx : FTPContext) (h : ctx.args.length ≠ l) :
    args_length l f ctx
      = ⟨[.said ("500 Unrecognised " ++ pyStrOfOpt ctx.command ++ " command.")],
         .ok { ctx with command := none, args := [] }⟩
    ∧ args_length l f ctx = args_length l g ctx := by
  unfold args_length
  rw [if_pos h]
  exact ⟨rfl, by rw [if_pos h]⟩

/-- Claim C7 amended witness: the `TYPE` wrapper at zero arguments. -/
theorem C7_arg_count_amended_witness :
    (c7ctx.args.length ≠ 1)
    ∧ (args_length 1 type_command c7ctx
        = ⟨[.said ("500 Unrecognised " ++ pyStrOfOpt c7ctx.command ++ " command.")],
           .ok { c7ctx with command := none, args := [] }⟩
      ∧ args_length 1 type_command c7ctx = args_length 1 stru_command c7ctx) :=
  ⟨by decide, C7_arg_count_amended 1 type_command stru_command c7ctx (by decide)⟩

/-- Claim C8 counterexample: dispatching `USER` on a fresh session returns the
session unchanged — the logged-in flag is still false afterwards, so the
session is NOT marked authenticated. -/
theorem C8_counterexample :
    process_command "/home" [] "USER\r\n" (init_ctx "/home") = ⟨[], .ok (init_ctx "/home")⟩
    ∧ (init_ctx "/home").is_logged = false := by
  exact ⟨rfl, rfl⟩

/-- Claim C8 (amended): USER and PASS dispatch unconditionally to the `auth`
handler, which performs no credential check and returns the session exactly
unchanged; in particular the logged-in flag is never set. -/
theorem C8_user_pass_amended (proc_cwd : String) (dataChunks : List (List Nat))
    (ctx : FTPContext) :
    auth ctx = ⟨[], .ok ctx⟩
    ∧ process_command proc_cwd dataChunks "USER\r\n" ctx = ⟨[], .ok ctx⟩
    ∧ process_command proc_cwd dataChunks "PASS\r\n" ctx = ⟨[], .ok ctx⟩ := by
  refine ⟨rfl, ?_, ?_⟩ <;> rfl

/-- A session jailed at `/var/ftp` with endpoint `10.1.1.1:1030`, asked for
the path `/` (which passes the inverted jail check). -/
def c10ctx : FTPContext :=
  { init_ctx "/var/ftp" with ip := some "10.1.1.1", port := some 1030, args := ["/"] }

/-- Claim C10 counterexample: on RETR's success path the handler never reaches
the `ctx.control_connection('226 RETR file ok.')` call of line 218: it fails
earlier, at line 213, with `NameError` (`fin` is referenced before the
`with open(...)` that would bind it), immediately after the data socket
connects — before the file is opened and before any copy loop runs. -/
theorem C10_counterexample :
    retr_command "/var/ftp" c10ctx
      = ⟨[.said "150 Here comes the file.", .connectedData "10.1.1.1" 1030], .error .nameError⟩
    ∧ (Except.error PyError.nameError : Except PyError FTPContext)
        ≠ Except.error PyError.typeError := by
  exact ⟨rfl, by decide⟩

/-- Claim C10 (amended): on STOR's success path, after the copy loop finishes
the handler calls `ctx.control_connection` itself instead of `.say`, raising
`TypeError`: `226 STOR file ok.` is never sent and the `ctx.ip`/`ctx.port`
clearing is never reached (the handler aborts, returning no context). RETR
fails even earlier: line 213 reads `fin` before it is bound, so RETR raises
`NameError` right after the data socket connects and likewise never sends its
`226` nor clears the endpoint. -/
theorem C10_success_path_amended (proc_cwd : String) (dataChunks : List (List Nat))
    (ctx : FTPContext) (ip : String) (port : Int)
    (hip : ctx.ip = some ip) (hport : ctx.port = some port)
    (hs : pyStartswith ctx.cwd (stor_abs proc_cwd ctx) = true)
    (hr : pyStartswith ctx.cwd (retr_abs proc_cwd ctx) = true) :
    stor_command proc_cwd dataChunks ctx
      = ⟨[.said "150 Here comes the train.", .connectedData ip port,
          .openedFileW (stor_abs proc_cwd ctx)] ++ (storCopy dataChunks).map Event.wroteFile,
         .error .typeError⟩
    ∧ Event.said "226 STOR file ok." ∉ (stor_command proc_cwd dataChunks ctx).events
    ∧ retr_command proc_cwd ctx
      = ⟨[.said "150 Here comes the file.", .connectedData ip port], .error .nameError⟩
    ∧ Event.said "226 RETR file ok." ∉ (retr_command proc_cwd ctx).events := by
  have h1 : stor_command proc_cwd dataChunks ctx
      = ⟨[.said "150 Here comes the train.", .connectedData ip port,
          .openedFileW (stor_abs proc_cwd ctx)] ++ (storCopy dataChunks).map Event.wroteFile,
         .error .typeError⟩ := by
    simp only [stor_command, hip, hport, hs]
    simp
  have h2 : retr_command proc_cwd ctx
      = ⟨[.said "150 Here comes the file.", .connectedData ip port], .error .nameError⟩ := by
    simp only [retr_command, hip, hport, hr]
    simp
  refine ⟨h1, ?_, h2, ?_⟩
  · rw [h1]
    simp only [List.mem_append, List.mem_cons, List.mem_map, List.not_mem_nil]
    push_neg
    refine ⟨⟨by decide, by simp, by simp, by simp⟩, ?_⟩
    intro c _
    simp
  · rw [h2]
    simp only [List.mem_cons, List.not_mem_nil]
    push_neg
    exact ⟨by decide, by simp, by simp⟩

/-- Claim C10 amended witness: the concrete session `c10ctx` with two data
chunks satisfies every hypothesis. -/
theorem C10_success_path_amended_witness :
    (c10ctx.ip = some "10.1.1.1" ∧ c10ctx.port = some 1030
      ∧ pyStartswith c10ctx.cwd (stor_abs "/var/ftp" c10ctx) = true
      ∧ pyStartswith c10ctx.cwd (retr_abs "/var/ftp" c10ctx) = true)
    ∧ (stor_command "/var/ftp" [[5], [6, 7]] c10ctx
        = ⟨[.said "150 Here comes the train.", .connectedData "10.1.1.1" 1030,
            .openedFileW (stor_abs "/var/ftp" c10ctx)]
              ++ (storCopy [[5], [6, 7]]).map Event.wroteFile,
           .error .typeError⟩
      ∧ Event.said "226 STOR file ok." ∉ (stor_command "/var/ftp" [[5], [6, 7]] c10ctx).events
      ∧ retr_command "/var/ftp" c10ctx
        = ⟨[.said "150 Here comes the file.", .connectedData "10.1.1.1" 1030], .error .nameError⟩
      ∧ Event.said "226 RETR file ok." ∉ (retr_command "/var/ftp" c10ctx).events) :=
  ⟨⟨by decide, by decide, by decide, by decide⟩,
   C10_success_path_amended "/var/ftp" [[5], [6, 7]] c10ctx "10.1.1.1" 1030
     (by decide) (by decide) (by decide) (by decide)⟩
